import Mathlib

/-!
Verification development for the `ai-resume-screener` repository.

The repository consists of three near-duplicate Streamlit applications
(`app.py`, `updated_app.py`, `super_app.py`) that extract text from an
uploaded PDF resume, send it together with a job description to a hosted
LLM ("the oracle"), parse the JSON verdict of the oracle, rewrite the resume,
re-score it, and render the result as a downloadable document.

We shallowly embed the logic the repository itself contains.  External collaborators
(the oracle endpoint, `json.loads`, `json.dumps`, `requests.get`, the
`pisa` HTML-to-PDF engine) are modelled as function parameters at their
interfaces; everything the repository itself computes (prompt
construction, truncation, dictionary access, the truthiness-driven
branching, the Word-document section walk, the result-metric strings) is
translated directly from the source.

Python values decoded from JSON are modelled by the inductive `Json`;
Python exceptions by `Except String`; `None`-or-value results by
`Option`.
-/

/-- A Python value as produced by `json.loads` (dict / list / str / int /
bool / None; floats do not occur in the data handled by this program). -/
inductive Json where
  | str (s : String)
  | int (n : Int)
  | bool (b : Bool)
  | null
  | arr (elems : List Json)
  | obj (entries : List (String × Json))

/-- A Python dict with string keys, as decoded from a JSON object. -/
abbrev Jdict := List (String × Json)

/-- Python `d.get(k)`: `None` when the key is absent. -/
def dget (d : Jdict) (k : String) : Option Json :=
  (d.find? (fun kv => kv.1 == k)).map (fun kv => kv.2)

/-- Python `d.get(k, default)`. -/
def dgetD (d : Jdict) (k : String) (dflt : Json) : Json :=
  (dget d k).getD dflt

/-- Python `d[k]`: raises `KeyError` when the key is absent. -/
def ditem (d : Jdict) (k : String) : Except String Json :=
  match dget d k with
  | some v => Except.ok v
  | none => Except.error "KeyError"

/-- Python truthiness of a decoded JSON value. -/
def truthy : Json → Bool
  | Json.str s => s != ""
  | Json.int n => n != 0
  | Json.bool b => b
  | Json.null => false
  | Json.arr l => !l.isEmpty
  | Json.obj l => !l.isEmpty

/-- Truthiness of `d.get(k)` (absent key evaluates as falsy `None`). -/
def truthyOpt : Option Json → Bool
  | some v => truthy v
  | none => false

/-- Whether a value is a Python `str`. -/
def Json.isStr : Json → Bool
  | Json.str _ => true
  | _ => false

/-- Coerce to `str`, raising `TypeError` otherwise (models call sites such
as `add_run` / `add_paragraph` that require a string argument). -/
def asStr : Json → Except String String
  | Json.str s => Except.ok s
  | _ => Except.error "TypeError"

/-- Coerce to a dict, raising otherwise (models `.get` attribute access on
a non-dict value). -/
def asDict : Json → Except String Jdict
  | Json.obj d => Except.ok d
  | _ => Except.error "AttributeError"

/-- Coerce to an `int`, raising `TypeError` otherwise. -/
def asInt : Json → Except String Int
  | Json.int n => Except.ok n
  | _ => Except.error "TypeError"

/-- Python iteration `for x in v`: lists yield their elements, strings
their characters, dicts their keys; other values raise `TypeError`. -/
def pyIter : Json → Except String (List Json)
  | Json.arr l => Except.ok l
  | Json.str s => Except.ok (s.data.map (fun c => Json.str (String.mk [c])))
  | Json.obj l => Except.ok (l.map (fun kv => Json.str kv.1))
  | _ => Except.error "TypeError"

mutual

/-- Python `repr` of a decoded JSON value (quoting and escaping of special
characters inside strings is not modelled; the values this program
formats are plain words). -/
def pyRepr : Json → String
  | Json.str s => "\x27" ++ s ++ "\x27"
  | Json.int n => toString n
  | Json.bool b => if b then "True" else "False"
  | Json.null => "None"
  | Json.arr l => "[" ++ String.intercalate ", " (pyReprList l) ++ "]"
  | Json.obj l => "\x7b" ++ String.intercalate ", " (pyReprObj l) ++ "\x7d"

/-- Python `repr` of each element of a list. -/
def pyReprList : List Json → List String
  | [] => []
  | x :: xs => pyRepr x :: pyReprList xs

/-- Python `repr` of each key/value pair of a dict. -/
def pyReprObj : List (String × Json) → List String
  | [] => []
  | kv :: rest => ("\x27" ++ kv.1 ++ "\x27: " ++ pyRepr kv.2) :: pyReprObj rest

end

/-- Python `str` of a decoded JSON value (as used by f-string
interpolation and by an explicit `str(...)` call). -/
def pyStr : Json → String
  | Json.str s => s
  | v => pyRepr v

/-- A run of text inside a paragraph, with the character formatting the
renderer sets (`bold`, `italic`).  Font names, sizes and colours are
cosmetic and not modelled. -/
structure Run where
  text : String
  bold : Bool
  italic : Bool
deriving DecidableEq

/-- A plain (non-bold, non-italic) run. -/
def Run.plain (s : String) : Run := ⟨s, false, false⟩

/-- An element of the generated Word document, in document order. -/
inductive DocElem where
  | heading (text : String) (level : Nat)
  | para (runs : List Run)
  | listBullet (text : String)
deriving DecidableEq

/-! ### `create_docx` (updated_app.py, lines 49-116)

The function walks the structured resume dict section by section.  We
split it into one definition per numbered section comment of the source;
`create_docx` sequences them.  The produced `BytesIO` stream is modelled
by the list of document elements written into the document. -/

/-- Section 1 of `create_docx`: the name header and the contact line
(source lines 60-70).  `data.get("name", "Candidate Name")` and
`data.get("contact_info", ...)` are passed to `add_run`, which requires a
string. -/
def headerSec (data : Jdict) : Except String (List DocElem) := do
  let nameText ← asStr (dgetD data "name" (Json.str "Candidate Name"))
  let contactText ←
    asStr (dgetD data "contact_info"
      (Json.str "Location | Email | Phone | LinkedIn"))
  pure [DocElem.para [⟨nameText, true, false⟩],
        DocElem.para [Run.plain contactText]]

/-- Section 2 of `create_docx`: professional summary (source lines
72-75), emitted only when `data.get("summary")` is truthy;
`add_paragraph(data["summary"])` requires a string. -/
def summarySec (data : Jdict) : Except String (List DocElem) := do
  if truthyOpt (dget data "summary") then
    let v ← ditem data "summary"
    let s ← asStr v
    pure [DocElem.heading "PROFESSIONAL SUMMARY" 1,
          DocElem.para [Run.plain s]]
  else
    pure []

/-- Concatenation of a list of decoded values that must all be strings
(the final `"".join(...)` of the run-content appender raises `TypeError`
on a non-string element). -/
def joinStrs : List Json → Except String String
  | [] => Except.ok ""
  | x :: xs => do
      let s ← asStr x
      let t ← joinStrs xs
      pure (s ++ t)

/-- The text `p.add_run(text)` (and `add_paragraph(text)`, which
forwards to it) turns its argument into: the run-content appender of
python-docx iterates the argument and joins the accumulated pieces, so
a string yields itself, a list yields the concatenation of its string
elements (a non-string element makes the join raise `TypeError`), a
dict yields the concatenation of its string keys, and a non-iterable
value (int, bool, None) raises `TypeError` at the `for`.  The tab and
newline translation inside the appender leaves the text unchanged and
is not modelled. -/
def addRunText : Json → Except String String
  | Json.str s => Except.ok s
  | Json.arr l => joinStrs l
  | Json.obj l => Except.ok (String.join (l.map (fun kv => kv.1)))
  | _ => Except.error "TypeError"

/-- The per-entry loop of the skills section: one paragraph per dict
entry, a bold `"category: "` run followed by the items run, whose text
is whatever `p.add_run(items)` accepts (see `addRunText`). -/
def renderSkillEntries : List (String × Json) → Except String (List DocElem)
  | [] => Except.ok []
  | (category, items) :: rest => do
      let itemsText ← addRunText items
      let tail ← renderSkillEntries rest
      pure (DocElem.para [⟨category ++ ": ", true, false⟩,
                          Run.plain itemsText] :: tail)

/-- Section 3 of `create_docx`: technical skills (source lines 77-86).
When `data["skills"]` is a dict, one line per entry in insertion order;
otherwise a single paragraph holding `str(data["skills"])`. -/
def skillsSec (data : Jdict) : Except String (List DocElem) := do
  if truthyOpt (dget data "skills") then
    let v ← ditem data "skills"
    match v with
    | Json.obj entries => do
        let lines ← renderSkillEntries entries
        pure (DocElem.heading "TECHNICAL SKILLS" 1 :: lines)
    | _ =>
        pure [DocElem.heading "TECHNICAL SKILLS" 1,
              DocElem.para [Run.plain (pyStr v)]]
  else
    pure []

/-- The bullet loop of one experience entry:
`doc.add_paragraph(bullet, style="List Bullet")` requires a string. -/
def renderBullets : List Json → Except String (List DocElem)
  | [] => Except.ok []
  | b :: rest => do
      let s ← asStr b
      let tail ← renderBullets rest
      pure (DocElem.listBullet s :: tail)

/-- One experience entry (the body of the `for job in data["experience"]`
loop, source lines 91-104): a bold role/company line built by f-string
interpolation, an italic dates run when `job.get("dates")` is truthy,
then the bullets. -/
def renderJob (j : Json) : Except String (List DocElem) := do
  let job ← asDict j
  let roleLine :=
    pyStr (dgetD job "role" (Json.str "Role")) ++ " | " ++
    pyStr (dgetD job "company" (Json.str "Company"))
  let dateRuns ←
    if truthyOpt (dget job "dates") then do
      let d ← ditem job "dates"
      pure [(⟨"  (" ++ pyStr d ++ ")", false, true⟩ : Run)]
    else
      pure ([] : List Run)
  let bulletSrc ← pyIter (dgetD job "bullets" (Json.arr []))
  let bullets ← renderBullets bulletSrc
  pure (DocElem.para (⟨roleLine, true, false⟩ :: dateRuns) :: bullets)

/-- The experience loop over `pyIter data["experience"]`. -/
def renderJobs : List Json → Except String (List DocElem)
  | [] => Except.ok []
  | j :: rest => do
      let here ← renderJob j
      let tail ← renderJobs rest
      pure (here ++ tail)

/-- Section 4 of `create_docx`: professional experience (source lines
88-104). -/
def experienceSec (data : Jdict) : Except String (List DocElem) := do
  if truthyOpt (dget data "experience") then
    let v ← ditem data "experience"
    let jobs ← pyIter v
    let body ← renderJobs jobs
    pure (DocElem.heading "PROFESSIONAL EXPERIENCE" 1 :: body)
  else
    pure []

/-- The education loop: one paragraph per entry, text built by f-string
interpolation of `edu.get("degree", ...)` and `edu.get("school", ...)`. -/
def renderEdus : List Json → Except String (List DocElem)
  | [] => Except.ok []
  | e :: rest => do
      let edu ← asDict e
      let tail ← renderEdus rest
      pure (DocElem.para
              [Run.plain (pyStr (dgetD edu "degree" (Json.str "")) ++ " - " ++
                          pyStr (dgetD edu "school" (Json.str "")))] :: tail)

/-- Section 5 of `create_docx`: education (source lines 106-110). -/
def educationSec (data : Jdict) : Except String (List DocElem) := do
  if truthyOpt (dget data "education") then
    let v ← ditem data "education"
    let edus ← pyIter v
    let body ← renderEdus edus
    pure (DocElem.heading "EDUCATION" 1 :: body)
  else
    pure []

/-- The function `create_docx(data)` (updated_app.py lines 49-116): emits the header,
then each optional section in the fixed order summary → skills →
experience → education.  The returned element list models the
content of the saved document. -/
def create_docx (data : Jdict) : Except String (List DocElem) := do
  let header ← headerSec data
  let summary ← summarySec data
  let skills ← skillsSec data
  let experience ← experienceSec data
  let education ← educationSec data
  pure (header ++ summary ++ skills ++ experience ++ education)

/-! ### The oracle interface

Every variant calls `client.chat.completions.create` with a single
user message.  The request is modelled by its semantically relevant
fields; the hosted model itself is a parameter
`oracle : ChatRequest → String` returning the completion text. -/

/-- One chat-completion request: model name, the user message content,
optional temperature (the sources use the float `0.0`, modelled as the
integer `0`), optional seed, and whether a JSON response format was
requested. -/
structure ChatRequest where
  model : String
  content : String
  temperature : Option Int
  seed : Option Nat
  jsonFormat : Bool

/-- Python string slicing `s[:n]`: the first `n` characters. -/
def pySlice (s : String) (n : Nat) : String := String.mk (s.data.take n)

/-- Subscription `v[k]` on an arbitrary decoded value: `KeyError` or
`TypeError` when `v` is not a dict holding `k`. -/
def jitem (v : Json) (k : String) : Except String Json :=
  match v with
  | Json.obj d => ditem d k
  | _ => Except.error "TypeError"

/-- Coercion of every element of a list to `str`, failing on the first non-string (models
`", ".join(...)` over decoded values). -/
def strList : List Json → Except String (List String)
  | [] => Except.ok []
  | x :: xs => do
      let s ← asStr x
      let t ← strList xs
      pure (s :: t)

/-! ### updated_app.py: oracle calls -/

/-- The f-string prompt of `analyze_fit` (updated_app.py lines 122-139):
both texts truncated to their first 4000 characters. -/
def analyze_fit_prompt (resume_text jd_text : String) : String :=
  "\n    Act as a strict ATS. Compare the RESUME vs JD.\n    \n    SCORING RULES:\n    - 100%: Perfect match (All hard skills + exact experience).\n    - <60%: Missing critical hard skills.\n    - Ignore Soft Skills. Focus on Tools, Languages, Frameworks.\n\n    Return JSON:\n    \x7b\n        \"match_percentage\": Integer (0-100),\n        \"missing_keywords\": [\"List\", \"of\", \"missing\", \"hard\", \"skills\"],\n        \"summary_critique\": \"1 sentence critique.\"\n    \x7d\n    \n    JD: "
  ++ pySlice jd_text 4000
  ++ "\n    RESUME: "
  ++ pySlice resume_text 4000
  ++ "\n    "

/-- The request `analyze_fit` submits (model gpt-4o-mini, temperature 0,
seed 42, JSON response format). -/
def analyze_fit_request (resume_text jd_text : String) : ChatRequest :=
  ⟨"gpt-4o-mini", analyze_fit_prompt resume_text jd_text, some 0, some 42, true⟩

/-- The function `analyze_fit(resume_text, jd_text)` (updated_app.py lines 118-147):
submit the prompt, then `json.loads` the completion.  `loads` models
`json.loads`; a decode failure is its `Except.error`. -/
def analyze_fit (oracle : ChatRequest → String)
    (loads : String → Except String Json)
    (resume_text jd_text : String) : Except String Json :=
  loads (oracle (analyze_fit_request resume_text jd_text))

/-- The f-string prompt of `rewrite_resume_to_json` (updated_app.py lines
154-184); `missingText` is the f-string rendering of
`gap_data["missing_keywords"]`. -/
def rewrite_prompt (resume_text jd_text missingText : String) : String :=
  "\n    You are a Top-Tier Resume Writer. \n    Rewrite the RESUME to target the JD, using the \x27Google XYZ Formula\x27 for bullet points.\n    \n    Formula: \"Accomplished [X] as measured by [Y], by doing [Z]\".\n    \n    INSTRUCTIONS:\n    1. Integrate missing keywords: "
  ++ missingText
  ++ "\n    2. Maintain the user\x27s truth but quantify results.\n    3. Return strictly JSON matching the structure below.\n\n    JSON Structure:\n    \x7b\n        \"name\": \"Candidate Name\",\n        \"contact_info\": \"City | Email | Phone\",\n        \"summary\": \"Revised Summary\",\n        \"skills\": \x7b\"Category\": \"List of skills\"\x7d,\n        \"experience\": [\n            \x7b\n                \"role\": \"Job Title\",\n                \"company\": \"Company\",\n                \"dates\": \"Date - Date\",\n                \"bullets\": [\"XYZ Bullet 1\", \"XYZ Bullet 2\"]\n            \x7d\n        ],\n        \"education\": [\x7b \"degree\": \"Degree\", \"school\": \"University\" \x7d]\n    \x7d\n\n    JD: "
  ++ pySlice jd_text 4000
  ++ "\n    RESUME: "
  ++ pySlice resume_text 4000
  ++ "\n    "

/-- The function `rewrite_resume_to_json(resume_text, jd_text, gap_data)`
(updated_app.py lines 149-192): interpolates
`gap_data["missing_keywords"]` into the prompt (raising when `gap_data`
is not a dict holding that key), submits with model gpt-4o, and
`json.loads` the completion. -/
def rewrite_resume_to_json (oracle : ChatRequest → String)
    (loads : String → Except String Json)
    (resume_text jd_text : String) (gap_data : Json) : Except String Json := do
  let mk ← jitem gap_data "missing_keywords"
  loads (oracle ⟨"gpt-4o", rewrite_prompt resume_text jd_text (pyStr mk),
                 some 0, some 42, true⟩)

/-! ### updated_app.py: URL fetch, JD choice, and the button pipeline -/

/-- A `requests` response at the interface this program uses. -/
structure HttpResponse where
  text : String

/-- The function `fetch_jd_from_url(url)` (updated_app.py lines 38-47): GET
`https://r.jina.ai/{url}` (with a 10 s timeout, not modelled) through the
parameter `httpGet`, whose `Except.error` models any raised exception;
the bare `except` returns `None`. -/
def fetch_jd_from_url (httpGet : String → Except String HttpResponse)
    (url : String) : Option String :=
  match httpGet ("https://r.jina.ai/" ++ url) with
  | Except.ok response => some response.text
  | Except.error _ => none

/-- The choice `final_jd = jd_text_input if jd_text_input else fetched_jd`
(updated_app.py line 229).  `jd_text_input` is the text-area string
(possibly empty); `fetched_jd` is `None` or the fetched text. -/
def final_jd (jd_text_input : String) (fetched_jd : Option String) :
    Option String :=
  if jd_text_input != "" then some jd_text_input else fetched_jd

/-- Python truthiness of a `None`-or-string value. -/
def strOptTruthy : Option String → Bool
  | some s => s != ""
  | none => false

/-- Calling `create_docx(resume_json)` where `resume_json` is an arbitrary
decoded value: attribute access `data.get` raises unless it is a dict. -/
def create_docx_j (v : Json) : Except String (List DocElem) := do
  let d ← asDict v
  create_docx d

/-- Everything the button handler computes after the input guard
(updated_app.py lines 233-275), insofar as the program computes it
itself. -/
structure PipelineResult where
  original_analysis : Json
  resume_json : Json
  docx_data : List DocElem
  new_analysis : Json
  originalScoreText : String
  newScoreText : String
  improvementText : String
  gapsText : String

/-- The `🚀 Analyze & Rewrite` button body after the guard
(updated_app.py lines 233-275): analyze the original text, rewrite it to
a structured resume, render the Word document, serialize the rewrite
with `json.dumps` (the parameter `dumps`) and re-run `analyze_fit` on it
against the same `final_jd`, then build the displayed metric strings
the percent-suffixed score strings and the improvement string, and the joined missing-keyword line.  Any
uncaught exception surfaces as `Except.error`. -/
def run_pipeline (oracle : ChatRequest → String)
    (loads : String → Except String Json) (dumps : Json → String)
    (original_text final_jd_text : String) : Except String PipelineResult := do
  let original_analysis ← analyze_fit oracle loads original_text final_jd_text
  let resume_json ←
    rewrite_resume_to_json oracle loads original_text final_jd_text
      original_analysis
  let docx_data ← create_docx_j resume_json
  let new_text_str := dumps resume_json
  let new_analysis ← analyze_fit oracle loads new_text_str final_jd_text
  let ov ← jitem original_analysis "match_percentage"
  let originalScoreText := pyStr ov ++ "%"
  let nv ← jitem new_analysis "match_percentage"
  let newScoreText := pyStr nv ++ "%"
  let ni ← asInt nv
  let oi ← asInt ov
  let imp := ni - oi
  let improvementText := "+" ++ toString imp ++ "%"
  let mkv ← jitem original_analysis "missing_keywords"
  let mkl ← pyIter mkv
  let mks ← strList mkl
  let gapsText := String.intercalate ", " mks
  pure ⟨original_analysis, resume_json, docx_data, new_analysis,
        originalScoreText, newScoreText, improvementText, gapsText⟩

/-- Outcome of pressing the button (updated_app.py lines 227-232): the
input guard either warns without any oracle call, or runs the
pipeline. -/
inductive ButtonOutcome where
  | warn
  | run (result : Except String PipelineResult)

/-- The button handler: choose `final_jd`, guard
`if not final_jd or not uploaded_file`, then run.  `uploaded_file`
carries the text the (external) PDF extraction yields for the uploaded
file. -/
def analyze_button (oracle : ChatRequest → String)
    (loads : String → Except String Json) (dumps : Json → String)
    (jd_text_input : String) (fetched_jd : Option String)
    (uploaded_file : Option String) : ButtonOutcome :=
  let fj := final_jd jd_text_input fetched_jd
  if !strOptTruthy fj || uploaded_file.isNone then
    ButtonOutcome.warn
  else
    ButtonOutcome.run
      (run_pipeline oracle loads dumps (uploaded_file.getD "") (fj.getD ""))

/-! ### app.py: gap analysis, HTML-to-PDF rendering, presentation -/

/-- The f-string prompt of `analyze_gap` (app.py lines 52-71): both texts
truncated to their first 3000 characters. -/
def analyze_gap_prompt (resume_text jd_text : String) : String :=
  "\n    You are a Senior Salesforce Recruiter & Technical Architect.\n    Analyze the RESUME against the JOB DESCRIPTION (JD).\n    \n    Identify:\n    1. Match Score (0-100).\n    2. Missing Hard Skills (Specific Salesforce Clouds, Tools, Languages like APEX, LWC, AMPScript).\n    3. Critical Missing Certifications.\n    \n    Return strictly JSON:\n    \x7b\n        \"score\": 0,\n        \"missing_skills\": [\"skill1\", \"skill2\"],\n        \"missing_certs\": [\"cert1\"],\n        \"advice\": \"Strategic advice...\"\n    \x7d\n\n    RESUME: "
  ++ pySlice resume_text 3000
  ++ "\n    JD: "
  ++ pySlice jd_text 3000
  ++ "\n    "

/-- The request `analyze_gap` submits (model gpt-4o-mini, JSON response
format, no temperature or seed). -/
def analyze_gap_request (resume_text jd_text : String) : ChatRequest :=
  ⟨"gpt-4o-mini", analyze_gap_prompt resume_text jd_text, none, none, true⟩

/-- The function `analyze_gap(resume_text, jd_text)` (app.py lines 48-77): submit the
prompt, then `json.loads` the completion. -/
def analyze_gap (oracle : ChatRequest → String)
    (loads : String → Except String Json)
    (resume_text jd_text : String) : Except String Json :=
  loads (oracle (analyze_gap_request resume_text jd_text))

/-- The f-string prompt of `generate_optimized_content` (app.py lines
83-108); `missingText` renders `gap_analysis["missing_skills"]`. -/
def optimized_content_prompt (resume_text jd_text missingText : String) :
    String :=
  "\n    You are a Professional Resume Writer specializing in the Salesforce Ecosystem.\n    Rewrite the candidate\x27s resume to perfectly target the Job Description.\n\n    INPUT DATA:\n    - Missing Skills to Integrate: "
  ++ missingText
  ++ "\n    - Job Context: "
  ++ pySlice jd_text 2000
  ++ "\n    - Original Resume: "
  ++ pySlice resume_text 3000
  ++ "\n\n    INSTRUCTIONS:\n    1. Output ONLY valid HTML code inside a <body> tag. DO NOT include <html> or <head> tags.\n    2. Use the following structure:\n       - <h1>Name</h1>\n       - <div class=\"contact-info\">Phone | Email | LinkedIn | Location</div>\n       - <div class=\"skills-box\"><strong>Technical Skills:</strong> [Insert Optimized Skills Here]</div>\n       - <h2>Professional Experience</h2>\n       - [For each job]: <div class=\"job-title\">Role</div> <div class=\"company\">Company | Dates</div>\n         <ul>\n           <li>[STAR Method Bullet Point 1 - Quantified results]</li>\n           <li>[STAR Method Bullet Point 2 - integrated missing keywords]</li>\n         </ul>\n       - <h2>Education & Certifications</h2>\n    \n    3. CRITICAL: Naturally weave the \x27Missing Skills\x27 into the bullet points. e.g., instead of \"Sent emails\", say \"Orchestrated Journey Builder campaigns using AMPScript...\"\n    4. Keep it professional and clean.\n    "

/-- The function `generate_optimized_content(resume_text, jd_text, gap_analysis)`
(app.py lines 79-114): interpolates `gap_analysis["missing_skills"]`,
submits with model gpt-4o (no JSON format), and returns the completion
text as-is. -/
def generate_optimized_content (oracle : ChatRequest → String)
    (resume_text jd_text : String) (gap_analysis : Json) :
    Except String String := do
  let ms ← jitem gap_analysis "missing_skills"
  pure (oracle ⟨"gpt-4o",
                optimized_content_prompt resume_text jd_text (pyStr ms),
                none, none, false⟩)

/-- The f-string prompt of `generate_cover_letter` (app.py lines
120-131). -/
def cover_letter_prompt (resume_text jd_text : String) : String :=
  "\n    Write a compelling, professional Cover Letter for this Salesforce role.\n    \n    Rules:\n    1. Tone: Enthusiastic, Professional, Confident.\n    2. Connect the candidate\x27s specific experience to the JD\x27s requirements.\n    3. Keep it under 300 words.\n    4. Return plain text (not HTML).\n    \n    RESUME: "
  ++ pySlice resume_text 2000
  ++ "\n    JD: "
  ++ pySlice jd_text 2000
  ++ "\n    "

/-- The function `generate_cover_letter(resume_text, jd_text)` (app.py lines 116-136):
returns the completion text as-is. -/
def generate_cover_letter (oracle : ChatRequest → String)
    (resume_text jd_text : String) : String :=
  oracle ⟨"gpt-4o", cover_letter_prompt resume_text jd_text,
          none, none, false⟩

/-- The constant `RESUME_CSS` (app.py lines 21-34), the fixed stylesheet prepended to
the generated HTML body. -/
def RESUME_CSS : String :=
  "\n<style>\n    @page \x7b size: a4 portrait; margin: 2cm; \x7d\n    body \x7b font-family: Helvetica, sans-serif; color: #333; line-height: 1.5; \x7d\n    h1 \x7b color: #0070d2; font-size: 24pt; margin-bottom: 5px; text-transform: uppercase; \x7d /* Salesforce Blue */\n    h2 \x7b color: #333; font-size: 14pt; border-bottom: 2px solid #0070d2; padding-bottom: 5px; margin-top: 20px; \x7d\n    .contact-info \x7b font-size: 10pt; color: #666; margin-bottom: 20px; \x7d\n    .job-title \x7b font-weight: bold; font-size: 11pt; margin-top: 10px; \x7d\n    .company \x7b font-style: italic; color: #555; \x7d\n    ul \x7b margin-top: 5px; \x7d\n    li \x7b font-size: 10pt; margin-bottom: 5px; \x7d\n    .skills-box \x7b background-color: #f4f6f9; padding: 10px; border-radius: 5px; font-size: 10pt; margin-bottom: 15px; \x7d\n</style>\n"

/-- The result of `pisa.CreatePDF`: an error count (`err`, truthy when
non-zero) together with the bytes written into the destination stream. -/
structure PisaStatus where
  err : Nat

/-- The function `pdf_from_html(html_content)` (app.py lines 38-46): run the converter
(parameter `createPDF`, modelling `pisa.CreatePDF`); return `None` when
`pisa_status.err` is truthy, the produced bytes otherwise. -/
def pdf_from_html (createPDF : String → PisaStatus × List Nat)
    (html_content : String) : Option (List Nat) :=
  let res := createPDF html_content
  if res.1.err != 0 then none else some res.2

/-- What the `Optimized Resume` tab does with the PDF bytes. -/
inductive PdfTabAction where
  | download (bytes : List Nat)
  | showError
deriving DecidableEq

/-- The download section of the `Optimized Resume` tab (app.py lines
226-235): `if pdf_bytes:` offers the download, otherwise
`st.error("Error generating PDF.")`. -/
def pdf_tab (createPDF : String → PisaStatus × List Nat)
    (optimized_html : String) : PdfTabAction :=
  match pdf_from_html createPDF optimized_html with
  | some b => if !b.isEmpty then PdfTabAction.download b else PdfTabAction.showError
  | none => PdfTabAction.showError

/-- The session state the app.py button handler fills (lines 163-184). -/
structure AppState where
  analysis : Json
  optimized_html : String
  cover_letter : String

/-- The `🚀 Analyze & Optimize Profile` button body of app.py (lines
163-184), after the input-presence guard: gap analysis, HTML rewrite
(wrapped with `RESUME_CSS`), cover letter.  Any uncaught exception
surfaces as `Except.error`. -/
def app_process (oracle : ChatRequest → String)
    (loads : String → Except String Json)
    (resume_text jd_input : String) : Except String AppState := do
  let analysis ← analyze_gap oracle loads resume_text jd_input
  let raw_html ← generate_optimized_content oracle resume_text jd_input analysis
  let optimized_html :=
    "<html><head>" ++ RESUME_CSS ++ "</head><body>" ++ raw_html ++ "</body></html>"
  let cover_letter := generate_cover_letter oracle resume_text jd_input
  pure ⟨analysis, optimized_html, cover_letter⟩

/-! ### super_app.py: the resume-screening module -/

/-- The part of the super_app.py f-string prompt (lines 46-58) before the
interpolated resume text. -/
def super_app_prompt_head : String :=
  "\n                You are a Technical Recruiter for a Senior BA role.\n                Extract these fields from the resume below and return JSON:\n                1. \"candidate_name\" (String)\n                2. \"years_experience\" (Integer estimate)\n                3. \"match_score\" (Integer 0-100 based on fit for Salesforce Architect)\n                4. \"key_skills\" (List of Strings)\n                5. \"missing_skills\" (List of Strings - what do they lack?)\n                6. \"summary\" (String - Professional verdict)\n\n                RESUME:\n                "

/-- The part of the super_app.py prompt after the interpolated text. -/
def super_app_prompt_tail : String := "\n                "

/-- In the super_app.py prompt (lines 46-58) the ENTIRE extracted resume
text is interpolated, with no slicing. -/
def super_app_prompt (text : String) : String :=
  super_app_prompt_head ++ text ++ super_app_prompt_tail

/-- The request super_app.py submits (lines 60-64). -/
def super_app_request (text : String) : ChatRequest :=
  ⟨"gpt-4o-mini", super_app_prompt text, none, none, true⟩

/-- The super_app.py `Analyze Candidate` oracle call and parse (lines
60-66): `json.loads` of the completion, uncaught on failure. -/
def super_app_analyze (oracle : ChatRequest → String)
    (loads : String → Except String Json) (text : String) :
    Except String Json :=
  loads (oracle (super_app_request text))

/-! ### Shape conditions under which the renderer cannot raise

`create_docx` raises on values whose shape the section walk cannot
consume (text a run-content appender cannot take, a non-iterable
experience value, ...).  `WellShaped` is a decidable record of shapes
every section accepts; it is the shape of the ResumeDocument data model
of the spec (string fields, mapping-or-blob skills, experience and
education as lists of dicts with string members), which in particular
satisfies every acceptance condition of the sections. -/

/-- Whether a value is a dict. -/
def Json.isObj : Json → Bool
  | Json.obj _ => true
  | _ => false

/-- Header tolerance: `name` / `contact_info`, when present, must be
strings (their defaults are strings). -/
def wsHeader (d : Jdict) : Bool :=
  (dgetD d "name" (Json.str "Candidate Name")).isStr &&
  (dgetD d "contact_info" (Json.str "Location | Email | Phone | LinkedIn")).isStr

/-- Summary tolerance: a truthy `summary` must be a string. -/
def wsSummary (d : Jdict) : Bool :=
  match dget d "summary" with
  | some v => !truthy v || v.isStr
  | none => true

/-- Skills shape: a mapping-shaped `skills` with string items — the
shape the rewriter prompt requests and the spec data model records.
(`add_run` also accepts other iterables of strings, concatenating them,
see `addRunText`; any non-mapping value is formatted with `str(...)`,
which is total.) -/
def wsSkills (d : Jdict) : Bool :=
  match dget d "skills" with
  | some (Json.obj entries) => entries.all (fun kv => (kv.2).isStr)
  | _ => true

/-- A `bullets` value the bullet loop tolerates: iterable with string
elements (a string iterates into its characters, a dict into its string
keys). -/
def wsBullets (v : Json) : Bool :=
  match v with
  | Json.arr l => l.all Json.isStr
  | Json.str _ => true
  | Json.obj _ => true
  | _ => false

/-- One experience entry must be a dict whose `bullets` value (default
`[]`) is tolerable. -/
def wsJob (j : Json) : Bool :=
  match j with
  | Json.obj job => wsBullets (dgetD job "bullets" (Json.arr []))
  | _ => false

/-- Experience tolerance: a truthy `experience` must be a list of
tolerable entries. -/
def wsExperience (d : Jdict) : Bool :=
  match dget d "experience" with
  | some v =>
      !truthy v ||
      (match v with
       | Json.arr jobs => jobs.all wsJob
       | _ => false)
  | none => true

/-- Education tolerance: a truthy `education` must be a list of dicts. -/
def wsEducation (d : Jdict) : Bool :=
  match dget d "education" with
  | some v =>
      !truthy v ||
      (match v with
       | Json.arr edus => edus.all Json.isObj
       | _ => false)
  | none => true

/-- Everything `create_docx` tolerates. -/
def WellShaped (d : Jdict) : Bool :=
  wsHeader d && wsSummary d && wsSkills d && wsExperience d && wsEducation d

/-! ### Helper lemmas -/

theorem exceptOkBind {α β : Type} (a : α) (f : α → Except String β) :
    (Except.ok a >>= f) = f a := rfl

theorem exceptErrBind {α β : Type} (e : String) (f : α → Except String β) :
    ((Except.error e : Except String α) >>= f) = Except.error e := rfl

theorem exceptPure {α : Type} (a : α) :
    (pure a : Except String α) = Except.ok a := rfl

theorem isStrIff {v : Json} : v.isStr = true ↔ ∃ s, v = Json.str s := by
  cases v <;> simp [Json.isStr]

theorem isObjIff {v : Json} : v.isObj = true ↔ ∃ d, v = Json.obj d := by
  cases v <;> simp [Json.isObj]

theorem asStrStr (s : String) : asStr (Json.str s) = Except.ok s := rfl

theorem truthyOptSome {v : Json} : truthyOpt (some v) = truthy v := rfl

/-- A truthy optional value is present. -/
theorem truthyOptIsSome {o : Option Json} (h : truthyOpt o = true) :
    ∃ v, o = some v ∧ truthy v = true := by
  cases o with
  | none => simp [truthyOpt] at h
  | some v => exact ⟨v, rfl, h⟩

theorem ditemOfDget {d : Jdict} {k : String} {v : Json}
    (h : dget d k = some v) : ditem d k = Except.ok v := by
  simp [ditem, h]

/-! ### Section-level lemmas about the renderer -/

/-- The document line `skillsSec` emits for one mapping entry. -/
def skillLine (kv : String × Json) : DocElem :=
  DocElem.para [⟨kv.1 ++ ": ", true, false⟩, Run.plain (pyStr kv.2)]


theorem bindOkElim {α β : Type} {x : Except String α} {f : α → Except String β}
    {b : β} (h : (x >>= f) = Except.ok b) :
    ∃ a, x = Except.ok a ∧ f a = Except.ok b := by
  cases x with
  | ok a => exact ⟨a, rfl, h⟩
  | error e => exact Except.noConfusion h

theorem asStrOk {v : Json} {s : String} (h : asStr v = Except.ok s) :
    v = Json.str s := by
  cases v with
  | str t => cases h; rfl
  | int n => cases h
  | bool b => cases h
  | null => cases h
  | arr l => cases h
  | obj l => cases h

theorem headerSecOk {d : Jdict} (h : wsHeader d = true) :
    ∃ nm ct,
      headerSec d =
        Except.ok [DocElem.para [⟨nm, true, false⟩],
                   DocElem.para [Run.plain ct]] ∧
      (dget d "name" = none → nm = "Candidate Name") ∧
      (dget d "contact_info" = none →
        ct = "Location | Email | Phone | LinkedIn") := by
  obtain ⟨hn, hc⟩ := Bool.and_eq_true_iff.mp h
  obtain ⟨nm, hnm⟩ := isStrIff.mp hn
  obtain ⟨ct, hct⟩ := isStrIff.mp hc
  refine ⟨nm, ct, ?_, ?_, ?_⟩
  · unfold headerSec
    rw [hnm, hct]
    rfl
  · intro hnone
    have : Json.str "Candidate Name" = Json.str nm := by
      rw [← hnm]; simp [dgetD, hnone]
    injection this with h2
    exact h2.symm
  · intro hnone
    have : Json.str "Location | Email | Phone | LinkedIn" = Json.str ct := by
      rw [← hct]; simp [dgetD, hnone]
    injection this with h2
    exact h2.symm

theorem headerSecCases {d : Jdict} {l : List DocElem}
    (h : headerSec d = Except.ok l) :
    ∃ nm ct,
      l = [DocElem.para [⟨nm, true, false⟩], DocElem.para [Run.plain ct]] ∧
      (dget d "name" = none → nm = "Candidate Name") ∧
      (dget d "contact_info" = none →
        ct = "Location | Email | Phone | LinkedIn") := by
  unfold headerSec at h
  obtain ⟨nm, hnm, h⟩ := bindOkElim h
  obtain ⟨ct, hct, h⟩ := bindOkElim h
  have hnm' := asStrOk hnm
  have hct' := asStrOk hct
  cases h
  refine ⟨nm, ct, rfl, ?_, ?_⟩
  · intro hnone
    have : Json.str "Candidate Name" = Json.str nm := by
      rw [← hnm']; simp [dgetD, hnone]
    injection this with h2
    exact h2.symm
  · intro hnone
    have : Json.str "Location | Email | Phone | LinkedIn" = Json.str ct := by
      rw [← hct']; simp [dgetD, hnone]
    injection this with h2
    exact h2.symm

theorem summarySecOk {d : Jdict} (h : wsSummary d = true) :
    ∃ l, summarySec d = Except.ok l ∧
      (dget d "summary" = none → l = []) ∧
      (∀ t lvl, DocElem.heading t lvl ∈ l → t = "PROFESSIONAL SUMMARY") ∧
      (truthyOpt (dget d "summary") = true →
        DocElem.heading "PROFESSIONAL SUMMARY" 1 ∈ l) := by
  unfold wsSummary at h
  cases hs : dget d "summary" with
  | none =>
      refine ⟨[], ?_, fun _ => rfl, by simp, ?_⟩
      · simp [summarySec, hs, truthyOpt, exceptPure]
      · intro ht; simp [truthyOpt] at ht
  | some v =>
      rw [hs] at h
      have h' : (!truthy v || v.isStr) = true := h
      cases htv : truthy v with
      | false =>
          refine ⟨[], ?_, fun _ => rfl, by simp, ?_⟩
          · simp [summarySec, hs, truthyOptSome, htv, exceptPure]
          · intro ht
            rw [truthyOptSome, htv] at ht
            cases ht
      | true =>
          rw [htv] at h'
          simp only [Bool.not_true, Bool.false_or] at h'
          obtain ⟨s, hvs⟩ := isStrIff.mp h'
          subst hvs
          refine ⟨[DocElem.heading "PROFESSIONAL SUMMARY" 1,
                   DocElem.para [Run.plain s]], ?_, ?_, ?_, ?_⟩
          · simp [summarySec, hs, truthyOptSome, htv, ditemOfDget hs,
                  exceptOkBind, asStrStr, exceptPure]
          · intro hnone; cases hnone
          · intro t lvl hm
            simp only [List.mem_cons, List.not_mem_nil, or_false] at hm
            rcases hm with h1 | h1
            · cases h1; rfl
            · cases h1
          · intro _; simp

theorem renderSkillEntriesOk {entries : List (String × Json)}
    (h : ∀ kv ∈ entries, (kv.2).isStr = true) :
    renderSkillEntries entries = Except.ok (entries.map skillLine) := by
  induction entries with
  | nil => rfl
  | cons kv rest ih =>
      obtain ⟨c, w⟩ := kv
      obtain ⟨s, hs⟩ := isStrIff.mp (h (c, w) (by simp))
      subst hs
      have hr := ih (fun x hx => h x (List.mem_cons_of_mem _ hx))
      simp [renderSkillEntries, addRunText, hr, exceptOkBind, exceptPure,
            skillLine, pyStr]

theorem headingNotMemSkillLines {entries : List (String × Json)} {t : String}
    {lvl : Nat} : DocElem.heading t lvl ∉ entries.map skillLine := by
  intro hm
  obtain ⟨kv, _, he⟩ := List.mem_map.mp hm
  simp [skillLine] at he

theorem skillsSecObjCons {d : Jdict} {kv0 : String × Json}
    {rest : List (String × Json)}
    (hs : dget d "skills" = some (Json.obj (kv0 :: rest)))
    (hall : ∀ kv ∈ kv0 :: rest, (kv.2).isStr = true) :
    skillsSec d = Except.ok
      (DocElem.heading "TECHNICAL SKILLS" 1 :: (kv0 :: rest).map skillLine) := by
  have hr := renderSkillEntriesOk hall
  simp [skillsSec, hs, truthyOptSome, truthy, ditemOfDget hs, exceptOkBind,
        hr, exceptPure]

theorem skillsSecNonObjTruthy {d : Jdict} {v : Json}
    (hs : dget d "skills" = some v) (ht : truthy v = true)
    (hno : v.isObj = false) :
    skillsSec d = Except.ok
      [DocElem.heading "TECHNICAL SKILLS" 1,
       DocElem.para [Run.plain (pyStr v)]] := by
  cases v with
  | obj l => cases hno
  | str s =>
      simp [skillsSec, hs, truthyOptSome, ht, ditemOfDget hs, exceptOkBind,
            exceptPure]
  | int n =>
      simp [skillsSec, hs, truthyOptSome, ht, ditemOfDget hs, exceptOkBind,
            exceptPure]
  | bool b =>
      simp [skillsSec, hs, truthyOptSome, ht, ditemOfDget hs, exceptOkBind,
            exceptPure]
  | null => cases ht
  | arr l =>
      simp [skillsSec, hs, truthyOptSome, ht, ditemOfDget hs, exceptOkBind,
            exceptPure]

theorem skillsSecOk {d : Jdict} (h : wsSkills d = true) :
    ∃ l, skillsSec d = Except.ok l ∧
      (dget d "skills" = none → l = []) ∧
      (∀ t lvl, DocElem.heading t lvl ∈ l → t = "TECHNICAL SKILLS") := by
  unfold wsSkills at h
  cases hs : dget d "skills" with
  | none =>
      exact ⟨[], by simp [skillsSec, hs, truthyOpt, exceptPure],
             fun _ => rfl, by simp⟩
  | some v =>
      rw [hs] at h
      cases htv : truthy v with
      | false =>
          exact ⟨[], by simp [skillsSec, hs, truthyOptSome, htv, exceptPure],
                 fun _ => rfl, by simp⟩
      | true =>
          cases hobj : v.isObj with
          | true =>
              obtain ⟨entries, hv⟩ := isObjIff.mp hobj
              subst hv
              have h' : entries.all (fun kv => (kv.2).isStr) = true := h
              have hall := List.all_eq_true.mp h'
              cases entries with
              | nil => cases htv
              | cons kv0 rest =>
                  refine ⟨_, skillsSecObjCons hs hall, fun hn => ?_, ?_⟩
                  · cases hn
                  · intro t lvl hm
                    rcases List.mem_cons.mp hm with h1 | h1
                    · cases h1; rfl
                    · exact absurd h1 headingNotMemSkillLines
          | false =>
              refine ⟨_, skillsSecNonObjTruthy hs htv hobj, fun hn => ?_, ?_⟩
              · cases hn
              · intro t lvl hm
                rcases List.mem_cons.mp hm with h1 | h1
                · cases h1; rfl
                · rcases List.mem_cons.mp h1 with h2 | h2
                  · cases h2
                  · cases h2

theorem pyIterStrs {v : Json} (h : wsBullets v = true) :
    ∃ l, pyIter v = Except.ok l ∧ ∀ x ∈ l, x.isStr = true := by
  cases v with
  | arr l => exact ⟨l, rfl, List.all_eq_true.mp h⟩
  | str s =>
      refine ⟨_, rfl, ?_⟩
      intro x hx
      obtain ⟨c, _, hc⟩ := List.mem_map.mp hx
      rw [← hc]; rfl
  | obj l =>
      refine ⟨_, rfl, ?_⟩
      intro x hx
      obtain ⟨kv, _, hkv⟩ := List.mem_map.mp hx
      rw [← hkv]; rfl
  | int n => cases h
  | bool b => cases h
  | null => cases h

theorem renderBulletsOk {l : List Json} (h : ∀ x ∈ l, x.isStr = true) :
    ∃ out, renderBullets l = Except.ok out ∧
      ∀ e ∈ out, ∃ s, e = DocElem.listBullet s := by
  induction l with
  | nil => exact ⟨[], rfl, by simp⟩
  | cons x xs ih =>
      obtain ⟨s, hx⟩ := isStrIff.mp (h x (by simp))
      subst hx
      obtain ⟨out, ho, hshape⟩ := ih (fun y hy => h y (List.mem_cons_of_mem _ hy))
      refine ⟨DocElem.listBullet s :: out, ?_, ?_⟩
      · simp [renderBullets, asStrStr, ho, exceptOkBind, exceptPure]
      · intro e he
        rcases List.mem_cons.mp he with h1 | h1
        · exact ⟨s, h1⟩
        · exact hshape e h1

theorem renderJobOk {j : Json} (h : wsJob j = true) :
    ∃ out, renderJob j = Except.ok out ∧
      ∀ t lvl, DocElem.heading t lvl ∉ out := by
  cases j with
  | obj job =>
      have hb : wsBullets (dgetD job "bullets" (Json.arr [])) = true := h
      obtain ⟨bl, hbl, hbstr⟩ := pyIterStrs hb
      obtain ⟨bout, hbout, hbshape⟩ := renderBulletsOk hbstr
      have hnoheadB : ∀ t lvl, DocElem.heading t lvl ∉ bout := by
        intro t lvl hm
        obtain ⟨s, hsx⟩ := hbshape _ hm
        cases hsx
      cases hd : truthyOpt (dget job "dates") with
      | true =>
          obtain ⟨dv, hdv, _⟩ := truthyOptIsSome hd
          refine ⟨DocElem.para
              [⟨pyStr (dgetD job "role" (Json.str "Role")) ++ " | " ++
                  pyStr (dgetD job "company" (Json.str "Company")), true, false⟩,
               ⟨"  (" ++ pyStr dv ++ ")", false, true⟩] :: bout, ?_, ?_⟩
          · simp [renderJob, asDict, exceptOkBind, hd, ditemOfDget hdv, hbl,
                  hbout, exceptPure]
          · intro t lvl hm
            rcases List.mem_cons.mp hm with h1 | h1
            · cases h1
            · exact hnoheadB t lvl h1
      | false =>
          refine ⟨DocElem.para
              [⟨pyStr (dgetD job "role" (Json.str "Role")) ++ " | " ++
                  pyStr (dgetD job "company" (Json.str "Company")),
                true, false⟩] :: bout, ?_, ?_⟩
          · simp [renderJob, asDict, exceptOkBind, hd, hbl, hbout, exceptPure]
          · intro t lvl hm
            rcases List.mem_cons.mp hm with h1 | h1
            · cases h1
            · exact hnoheadB t lvl h1
  | str s => cases h
  | int n => cases h
  | bool b => cases h
  | null => cases h
  | arr l => cases h

theorem renderJobsOk {jobs : List Json} (h : ∀ j ∈ jobs, wsJob j = true) :
    ∃ out, renderJobs jobs = Except.ok out ∧
      ∀ t lvl, DocElem.heading t lvl ∉ out := by
  induction jobs with
  | nil => exact ⟨[], rfl, by simp⟩
  | cons j rest ih =>
      obtain ⟨here, hh, hnh⟩ := renderJobOk (h j (by simp))
      obtain ⟨tail, htl, hnt⟩ := ih (fun x hx => h x (List.mem_cons_of_mem _ hx))
      refine ⟨here ++ tail, ?_, ?_⟩
      · simp [renderJobs, hh, htl, exceptOkBind, exceptPure]
      · intro t lvl hm
        rcases List.mem_append.mp hm with h1 | h1
        · exact hnh t lvl h1
        · exact hnt t lvl h1

theorem experienceSecOk {d : Jdict} (h : wsExperience d = true) :
    ∃ l, experienceSec d = Except.ok l ∧
      (dget d "experience" = none → l = []) ∧
      (∀ t lvl, DocElem.heading t lvl ∈ l → t = "PROFESSIONAL EXPERIENCE") := by
  unfold wsExperience at h
  cases hs : dget d "experience" with
  | none =>
      exact ⟨[], by simp [experienceSec, hs, truthyOpt, exceptPure],
             fun _ => rfl, by simp⟩
  | some v =>
      rw [hs] at h
      cases htv : truthy v with
      | false =>
          exact ⟨[], by simp [experienceSec, hs, truthyOptSome, htv, exceptPure],
                 fun _ => rfl, by simp⟩
      | true =>
          cases v with
          | arr jobs =>
              have h' : jobs.all wsJob = true := by
                have h2 : (!truthy (Json.arr jobs) ||
                    jobs.all wsJob) = true := h
                rw [htv] at h2
                simpa using h2
              obtain ⟨out, hout, hnh⟩ := renderJobsOk (List.all_eq_true.mp h')
              refine ⟨DocElem.heading "PROFESSIONAL EXPERIENCE" 1 :: out, ?_,
                      fun hn => ?_, ?_⟩
              · simp [experienceSec, hs, truthyOptSome, htv, ditemOfDget hs,
                      exceptOkBind, pyIter, hout, exceptPure]
              · cases hn
              · intro t lvl hm
                rcases List.mem_cons.mp hm with h1 | h1
                · cases h1; rfl
                · exact absurd h1 (hnh t lvl)
          | str s =>
              have h2 : (!truthy (Json.str s) || false) = true := h
              rw [htv] at h2
              cases h2
          | int n =>
              have h2 : (!truthy (Json.int n) || false) = true := h
              rw [htv] at h2
              cases h2
          | bool b =>
              have h2 : (!truthy (Json.bool b) || false) = true := h
              rw [htv] at h2
              cases h2
          | null => cases htv
          | obj o =>
              have h2 : (!truthy (Json.obj o) || false) = true := h
              rw [htv] at h2
              cases h2

theorem renderEdusOk {l : List Json} (h : ∀ x ∈ l, x.isObj = true) :
    ∃ out, renderEdus l = Except.ok out ∧
      ∀ t lvl, DocElem.heading t lvl ∉ out := by
  induction l with
  | nil => exact ⟨[], rfl, by simp⟩
  | cons x rest ih =>
      obtain ⟨edu, hx⟩ := isObjIff.mp (h x (by simp))
      subst hx
      obtain ⟨tail, htl, hnt⟩ := ih (fun y hy => h y (List.mem_cons_of_mem _ hy))
      refine ⟨DocElem.para
          [Run.plain (pyStr (dgetD edu "degree" (Json.str "")) ++ " - " ++
                      pyStr (dgetD edu "school" (Json.str "")))] :: tail,
        ?_, ?_⟩
      · simp [renderEdus, asDict, exceptOkBind, htl, exceptPure]
      · intro t lvl hm
        rcases List.mem_cons.mp hm with h1 | h1
        · cases h1
        · exact hnt t lvl h1

theorem educationSecOk {d : Jdict} (h : wsEducation d = true) :
    ∃ l, educationSec d = Except.ok l ∧
      (dget d "education" = none → l = []) ∧
      (∀ t lvl, DocElem.heading t lvl ∈ l → t = "EDUCATION") := by
  unfold wsEducation at h
  cases hs : dget d "education" with
  | none =>
      exact ⟨[], by simp [educationSec, hs, truthyOpt, exceptPure],
             fun _ => rfl, by simp⟩
  | some v =>
      rw [hs] at h
      cases htv : truthy v with
      | false =>
          exact ⟨[], by simp [educationSec, hs, truthyOptSome, htv, exceptPure],
                 fun _ => rfl, by simp⟩
      | true =>
          cases v with
          | arr edus =>
              have h' : edus.all Json.isObj = true := by
                have h2 : (!truthy (Json.arr edus) ||
                    edus.all Json.isObj) = true := h
                rw [htv] at h2
                simpa using h2
              obtain ⟨out, hout, hnh⟩ := renderEdusOk (List.all_eq_true.mp h')
              refine ⟨DocElem.heading "EDUCATION" 1 :: out, ?_,
                      fun hn => ?_, ?_⟩
              · simp [educationSec, hs, truthyOptSome, htv, ditemOfDget hs,
                      exceptOkBind, pyIter, hout, exceptPure]
              · cases hn
              · intro t lvl hm
                rcases List.mem_cons.mp hm with h1 | h1
                · cases h1; rfl
                · exact absurd h1 (hnh t lvl)
          | str s =>
              have h2 : (!truthy (Json.str s) || false) = true := h
              rw [htv] at h2
              cases h2
          | int n =>
              have h2 : (!truthy (Json.int n) || false) = true := h
              rw [htv] at h2
              cases h2
          | bool b =>
              have h2 : (!truthy (Json.bool b) || false) = true := h
              rw [htv] at h2
              cases h2
          | null => cases htv
          | obj o =>
              have h2 : (!truthy (Json.obj o) || false) = true := h
              rw [htv] at h2
              cases h2

theorem createDocxEq {d : Jdict} {l1 l2 l3 l4 l5 : List DocElem}
    (h1 : headerSec d = Except.ok l1) (h2 : summarySec d = Except.ok l2)
    (h3 : skillsSec d = Except.ok l3) (h4 : experienceSec d = Except.ok l4)
    (h5 : educationSec d = Except.ok l5) :
    create_docx d = Except.ok (l1 ++ l2 ++ l3 ++ l4 ++ l5) := by
  simp [create_docx, h1, h2, h3, h4, h5, exceptOkBind, exceptPure]

theorem createDocxCases {d : Jdict} {elems : List DocElem}
    (h : create_docx d = Except.ok elems) :
    ∃ l1 l2 l3 l4 l5,
      headerSec d = Except.ok l1 ∧ summarySec d = Except.ok l2 ∧
      skillsSec d = Except.ok l3 ∧ experienceSec d = Except.ok l4 ∧
      educationSec d = Except.ok l5 ∧ elems = l1 ++ l2 ++ l3 ++ l4 ++ l5 := by
  unfold create_docx at h
  obtain ⟨l1, h1, h⟩ := bindOkElim h
  obtain ⟨l2, h2, h⟩ := bindOkElim h
  obtain ⟨l3, h3, h⟩ := bindOkElim h
  obtain ⟨l4, h4, h⟩ := bindOkElim h
  obtain ⟨l5, h5, h⟩ := bindOkElim h
  cases h
  exact ⟨l1, l2, l3, l4, l5, h1, h2, h3, h4, h5, rfl⟩

/-! ### Claim theorems -/

theorem memFiveParts {α : Type} {x : α} {l1 l2 l3 l4 l5 : List α}
    (hm : x ∈ l1 ++ l2 ++ l3 ++ l4 ++ l5) :
    x ∈ l1 ∨ x ∈ l2 ∨ x ∈ l3 ∨ x ∈ l4 ∨ x ∈ l5 := by
  simp only [List.mem_append] at hm
  tauto

theorem memFiveParts₂ {α : Type} {x : α} {l1 l2 l3 l4 l5 : List α}
    (h : x ∈ l2) : x ∈ l1 ++ l2 ++ l3 ++ l4 ++ l5 := by
  simp only [List.mem_append]
  tauto

theorem fivePartsCons {α : Type} (a b : α) (l2 l3 l4 l5 : List α) :
    [a, b] ++ l2 ++ l3 ++ l4 ++ l5 = a :: b :: (l2 ++ l3 ++ l4 ++ l5) := by
  simp

/-- C1: for every well-shaped ResumeDocument dict (string header and
summary fields, string-itemed skills mapping or arbitrary non-mapping
skills, experience/education lists of dicts — the shapes prescribed by
the data model of the spec), rendering succeeds (does not raise); when an
optional field (summary, skills, experience, education) is absent its
section heading is not emitted at all; the name/contact header always
appears, and a present (truthy) summary still yields its section. -/
theorem C1_absent_optional_sections (data : Jdict)
    (hws : WellShaped data = true) :
    ∃ elems, create_docx data = Except.ok elems ∧
      (dget data "summary" = none →
        DocElem.heading "PROFESSIONAL SUMMARY" 1 ∉ elems) ∧
      (dget data "skills" = none →
        DocElem.heading "TECHNICAL SKILLS" 1 ∉ elems) ∧
      (dget data "experience" = none →
        DocElem.heading "PROFESSIONAL EXPERIENCE" 1 ∉ elems) ∧
      (dget data "education" = none →
        DocElem.heading "EDUCATION" 1 ∉ elems) ∧
      (truthyOpt (dget data "summary") = true →
        DocElem.heading "PROFESSIONAL SUMMARY" 1 ∈ elems) ∧
      (∃ nameRun contactRun rest,
        elems = DocElem.para [nameRun] :: DocElem.para [contactRun] :: rest) := by
  have hws' := hws
  simp only [WellShaped, Bool.and_eq_true] at hws'
  obtain ⟨⟨⟨⟨hH, hSu⟩, hSk⟩, hEx⟩, hEd⟩ := hws'
  obtain ⟨nm, ct, hhead, _, _⟩ := headerSecOk hH
  obtain ⟨l2, h2, h2none, h2head, h2mem⟩ := summarySecOk hSu
  obtain ⟨l3, h3, h3none, h3head⟩ := skillsSecOk hSk
  obtain ⟨l4, h4, h4none, h4head⟩ := experienceSecOk hEx
  obtain ⟨l5, h5, h5none, h5head⟩ := educationSecOk hEd
  refine ⟨_, createDocxEq hhead h2 h3 h4 h5, ?_, ?_, ?_, ?_, ?_, ?_⟩
  · intro hn hm
    rcases memFiveParts hm with h1 | h1 | h1 | h1 | h1
    · simp at h1
    · rw [h2none hn] at h1; cases h1
    · exact absurd (h3head _ _ h1) (by decide)
    · exact absurd (h4head _ _ h1) (by decide)
    · exact absurd (h5head _ _ h1) (by decide)
  · intro hn hm
    rcases memFiveParts hm with h1 | h1 | h1 | h1 | h1
    · simp at h1
    · exact absurd (h2head _ _ h1) (by decide)
    · rw [h3none hn] at h1; cases h1
    · exact absurd (h4head _ _ h1) (by decide)
    · exact absurd (h5head _ _ h1) (by decide)
  · intro hn hm
    rcases memFiveParts hm with h1 | h1 | h1 | h1 | h1
    · simp at h1
    · exact absurd (h2head _ _ h1) (by decide)
    · exact absurd (h3head _ _ h1) (by decide)
    · rw [h4none hn] at h1; cases h1
    · exact absurd (h5head _ _ h1) (by decide)
  · intro hn hm
    rcases memFiveParts hm with h1 | h1 | h1 | h1 | h1
    · simp at h1
    · exact absurd (h2head _ _ h1) (by decide)
    · exact absurd (h3head _ _ h1) (by decide)
    · exact absurd (h4head _ _ h1) (by decide)
    · rw [h5none hn] at h1; cases h1
  · intro ht
    exact memFiveParts₂ (h2mem ht)
  · exact ⟨⟨nm, true, false⟩, Run.plain ct, l2 ++ l3 ++ l4 ++ l5,
           fivePartsCons _ _ _ _ _ _⟩

/-- A concrete ResumeDocument with `skills`, `experience` and
`education` absent, used to instantiate C1. -/
def c1data : Jdict :=
  [("name", Json.str "Ada Lovelace"), ("summary", Json.str "Analyst")]

/-- Witness for C1 at `c1data`. -/
theorem C1_witness :
    ∃ elems, create_docx c1data = Except.ok elems ∧
      (dget c1data "summary" = none →
        DocElem.heading "PROFESSIONAL SUMMARY" 1 ∉ elems) ∧
      (dget c1data "skills" = none →
        DocElem.heading "TECHNICAL SKILLS" 1 ∉ elems) ∧
      (dget c1data "experience" = none →
        DocElem.heading "PROFESSIONAL EXPERIENCE" 1 ∉ elems) ∧
      (dget c1data "education" = none →
        DocElem.heading "EDUCATION" 1 ∉ elems) ∧
      (truthyOpt (dget c1data "summary") = true →
        DocElem.heading "PROFESSIONAL SUMMARY" 1 ∈ elems) ∧
      (∃ nameRun contactRun rest,
        elems = DocElem.para [nameRun] :: DocElem.para [contactRun] :: rest) :=
  C1_absent_optional_sections c1data (by decide)

/-- C2 counterexample: the claim fails as stated.  For the non-mapping
skills value `""` (present but falsy), the rendered document contains NO
paragraph with its string form — the `if data.get("skills"):` guard
skips the section for every falsy value, so nothing at all is emitted
for it. -/
theorem C2_counterexample :
    create_docx [("skills", Json.str "")] =
      Except.ok [DocElem.para [⟨"Candidate Name", true, false⟩],
                 DocElem.para [Run.plain "Location | Email | Phone | LinkedIn"]] ∧
    DocElem.para [Run.plain (pyStr (Json.str ""))] ∉
      ([DocElem.para [⟨"Candidate Name", true, false⟩],
        DocElem.para [Run.plain "Location | Email | Phone | LinkedIn"]] :
        List DocElem) := by
  refine ⟨by rfl, by decide⟩

/-- C2 amended: for every well-shaped ResumeDocument dict (string skill
items, the shape the rewriter prompt requests and the spec data model
records), when `skills` is a mapping the document contains one
contiguous block with exactly one `"category: "`-bold-plus-items line
per entry, in insertion order; when `skills` is a non-mapping *truthy*
value, the document contains a single paragraph holding its Python
string form.  Falsy skills values — empty string, empty mapping, null,
0, false — render nothing, because the section guard
`if data.get("skills"):` skips them; that truthiness qualifier is the
only restriction the counterexample forces.  (List-valued items are not
an error either: `add_run` concatenates any iterable of strings, see
`addRunText` and the second conjunct of the witness.) -/
theorem C2_skills_rendering (data : Jdict) (hws : WellShaped data = true) :
    (∀ entries, dget data "skills" = some (Json.obj entries) →
      ∃ front back, create_docx data =
        Except.ok (front ++ entries.map skillLine ++ back)) ∧
    (∀ v, dget data "skills" = some v → v.isObj = false → truthy v = true →
      ∃ front back, create_docx data =
        Except.ok (front ++ [DocElem.para [Run.plain (pyStr v)]] ++ back)) := by
  have hws' := hws
  simp only [WellShaped, Bool.and_eq_true] at hws'
  obtain ⟨⟨⟨⟨hH, hSu⟩, hSk⟩, hEx⟩, hEd⟩ := hws'
  obtain ⟨nm, ct, hhead, _, _⟩ := headerSecOk hH
  obtain ⟨l2, h2, _, _, _⟩ := summarySecOk hSu
  obtain ⟨l4, h4, _, _⟩ := experienceSecOk hEx
  obtain ⟨l5, h5, _, _⟩ := educationSecOk hEd
  constructor
  · intro entries hsk
    have hall : ∀ kv ∈ entries, (kv.2).isStr = true := by
      have h' := hSk
      unfold wsSkills at h'
      rw [hsk] at h'
      exact List.all_eq_true.mp h'
    cases entries with
    | nil =>
        have h3 : skillsSec data = Except.ok [] := by
          simp [skillsSec, hsk, truthyOptSome, truthy, exceptPure]
        refine ⟨[DocElem.para [⟨nm, true, false⟩],
                 DocElem.para [Run.plain ct]] ++ l2, l4 ++ l5, ?_⟩
        rw [createDocxEq hhead h2 h3 h4 h5]
        simp
    | cons kv0 rest =>
        have h3 := skillsSecObjCons hsk hall
        refine ⟨[DocElem.para [⟨nm, true, false⟩],
                 DocElem.para [Run.plain ct]] ++ l2 ++
                 [DocElem.heading "TECHNICAL SKILLS" 1], l4 ++ l5, ?_⟩
        rw [createDocxEq hhead h2 h3 h4 h5]
        simp
  · intro v hsk hno ht
    have h3 := skillsSecNonObjTruthy hsk ht hno
    refine ⟨[DocElem.para [⟨nm, true, false⟩],
             DocElem.para [Run.plain ct]] ++ l2 ++
             [DocElem.heading "TECHNICAL SKILLS" 1], l4 ++ l5, ?_⟩
    rw [createDocxEq hhead h2 h3 h4 h5]
    simp

/-- A concrete ResumeDocument whose skills field is a two-entry mapping,
used to instantiate C2. -/
def c2data : Jdict :=
  [("skills", Json.obj [("Languages", Json.str "Python, SQL"),
                        ("Clouds", Json.str "AWS")])]

/-- Witness for C2 at `c2data`; the final conjunct also exhibits the
renderer on list-valued items, which `add_run` concatenates into
`"PythonSQL"` rather than rejecting. -/
theorem C2_witness :
    ((∀ entries, dget c2data "skills" = some (Json.obj entries) →
      ∃ front back, create_docx c2data =
        Except.ok (front ++ entries.map skillLine ++ back)) ∧
    (∀ v, dget c2data "skills" = some v → v.isObj = false → truthy v = true →
      ∃ front back, create_docx c2data =
        Except.ok (front ++ [DocElem.para [Run.plain (pyStr v)]] ++ back))) ∧
    create_docx
        [("skills", Json.obj
          [("Languages", Json.arr [Json.str "Python", Json.str "SQL"])])] =
      Except.ok
        [DocElem.para [⟨"Candidate Name", true, false⟩],
         DocElem.para [Run.plain "Location | Email | Phone | LinkedIn"],
         DocElem.heading "TECHNICAL SKILLS" 1,
         DocElem.para [⟨"Languages: ", true, false⟩,
                       Run.plain "PythonSQL"]] :=
  ⟨C2_skills_rendering c2data (by decide), by rfl⟩

/-- C9: whenever `create_docx` produces a document, its first two
elements are the name-header paragraph (bold run) and the contact-line
paragraph — the header is never skipped — and when the `name` or
`contact_info` field is absent the respective run holds the placeholder
text `"Candidate Name"` / `"Location | Email | Phone | LinkedIn"`. -/
theorem C9_header_placeholders (data : Jdict) (elems : List DocElem)
    (h : create_docx data = Except.ok elems) :
    ∃ r1 r2 rest, elems = DocElem.para [r1] :: DocElem.para [r2] :: rest ∧
      r1.bold = true ∧
      (dget data "name" = none → r1.text = "Candidate Name") ∧
      (dget data "contact_info" = none →
        r2.text = "Location | Email | Phone | LinkedIn") := by
  obtain ⟨l1, l2, l3, l4, l5, h1, _, _, _, _, helems⟩ := createDocxCases h
  obtain ⟨nm, ct, hl1, hname, hcontact⟩ := headerSecCases h1
  subst hl1
  subst helems
  refine ⟨⟨nm, true, false⟩, Run.plain ct, l2 ++ l3 ++ l4 ++ l5,
          fivePartsCons _ _ _ _ _ _, rfl, ?_, ?_⟩
  · intro hn; exact hname hn
  · intro hn; exact hcontact hn

/-- Witness for C9 at the empty dict: both placeholders are emitted. -/
theorem C9_witness :
    ∃ r1 r2 rest,
      ([DocElem.para [⟨"Candidate Name", true, false⟩],
        DocElem.para [Run.plain "Location | Email | Phone | LinkedIn"]] :
        List DocElem) = DocElem.para [r1] :: DocElem.para [r2] :: rest ∧
      r1.bold = true ∧
      (dget [] "name" = none → r1.text = "Candidate Name") ∧
      (dget [] "contact_info" = none →
        r2.text = "Location | Email | Phone | LinkedIn") :=
  C9_header_placeholders [] _ (by rfl)

theorem pySliceIdem (s : String) (n : Nat) :
    pySlice (pySlice s n) n = pySlice s n := by
  simp [pySlice, List.take_take]

/-- The resume text refuting C3: 5000 copies of `a` followed by a single
`Z`, so that `Z` occurs in the text only beyond every few-thousand
character prefix. -/
def c3text : String := String.mk (List.replicate 5000 'a' ++ ['Z'])

set_option maxRecDepth 8192 in
/-- C3 counterexample: super_app.py interpolates the ENTIRE resume
text into its prompt.  The character `Z` of `c3text` — which occurs only
at position 5000, beyond the 3000/4000-character bounds the other
variants use and not within the first 5000 characters — appears in the
submitted prompt, and it can only come from the resume text, as the
fixed prompt template contains no `Z`. -/
theorem C3_counterexample :
    'Z' ∈ (super_app_prompt c3text).data ∧
    c3text.data.length = 5001 ∧
    'Z' ∉ (pySlice c3text 5000).data ∧
    'Z' ∉ super_app_prompt_head.data ∧
    'Z' ∉ super_app_prompt_tail.data := by
  refine ⟨?_, ?_, ?_, ?_, ?_⟩
  · show 'Z' ∈ (super_app_prompt_head ++ c3text ++ super_app_prompt_tail).data
    rw [String.data_append, String.data_append]
    refine List.mem_append.mpr (Or.inl (List.mem_append.mpr (Or.inr ?_)))
    show 'Z' ∈ List.replicate 5000 'a' ++ ['Z']
    exact List.mem_append.mpr (Or.inr (by simp))
  · show (List.replicate 5000 'a' ++ ['Z']).length = 5001
    rw [List.length_append, List.length_replicate]
    rfl
  · show 'Z' ∉ (List.replicate 5000 'a' ++ ['Z']).take 5000
    intro hm
    rw [List.take_append_of_le_length (by rw [List.length_replicate]),
        List.take_replicate] at hm
    exact absurd (List.mem_replicate.mp hm).2 (by decide)
  · decide
  · decide

/-- C3 amended: in `analyze_gap` (app.py) and `analyze_fit`
(updated_app.py) the prompt depends only on the first 3000 resp. 4000
characters of the resume and job texts — the bounded-prefix truncation
the claim describes — but the super_app.py prompt embeds the whole
extracted resume text with no truncation. -/
theorem C3_prompt_truncation (r j t : String) :
    analyze_gap_prompt r j =
      analyze_gap_prompt (pySlice r 3000) (pySlice j 3000) ∧
    analyze_fit_prompt r j =
      analyze_fit_prompt (pySlice r 4000) (pySlice j 4000) ∧
    super_app_prompt t =
      super_app_prompt_head ++ t ++ super_app_prompt_tail := by
  refine ⟨?_, ?_, rfl⟩
  · simp [analyze_gap_prompt, pySliceIdem]
  · simp [analyze_fit_prompt, pySliceIdem]

/-- C5: when `json.loads` fails on the completion returned by the
oracle (the response is not valid JSON), the analyzer of each variant
returns exactly
that decode failure, and — having no try/except anywhere on the path —
so does the whole button pipeline of updated_app.py and the whole
button body of app.py: no GapReport value is produced. -/
theorem C5_decode_error_uncaught (oracle : ChatRequest → String)
    (loads : String → Except String Json) (dumps : Json → String)
    (r j e : String) :
    (loads (oracle (analyze_fit_request r j)) = Except.error e →
      analyze_fit oracle loads r j = Except.error e ∧
      run_pipeline oracle loads dumps r j = Except.error e) ∧
    (loads (oracle (analyze_gap_request r j)) = Except.error e →
      analyze_gap oracle loads r j = Except.error e ∧
      app_process oracle loads r j = Except.error e) ∧
    (loads (oracle (super_app_request r)) = Except.error e →
      super_app_analyze oracle loads r = Except.error e) := by
  refine ⟨fun h => ⟨h, ?_⟩, fun h => ⟨h, ?_⟩, fun h => h⟩
  · show (analyze_fit oracle loads r j >>= _) = Except.error e
    rw [show analyze_fit oracle loads r j = Except.error e from h]
    rfl
  · show (analyze_gap oracle loads r j >>= _) = Except.error e
    rw [show analyze_gap oracle loads r j = Except.error e from h]
    rfl

/-- A `json.loads` stand-in that always reports a decode failure. -/
def loadsErr : String → Except String Json :=
  fun _ => Except.error "Expecting value"

/-- An oracle stand-in returning a fixed non-JSON completion. -/
def oracleText : ChatRequest → String :=
  fun _ => "Sorry, I cannot help with that."

/-- A `json.dumps` stand-in. -/
def dumpsConst : Json → String := fun _ => "SERIALIZED"

/-- Witness for C5: with a failing parse, all analyzers and both button
bodies surface the decode error. -/
theorem C5_witness :
    analyze_fit oracleText loadsErr "resume" "jd" =
      Except.error "Expecting value" ∧
    run_pipeline oracleText loadsErr dumpsConst "resume" "jd" =
      Except.error "Expecting value" ∧
    analyze_gap oracleText loadsErr "resume" "jd" =
      Except.error "Expecting value" ∧
    app_process oracleText loadsErr "resume" "jd" =
      Except.error "Expecting value" ∧
    super_app_analyze oracleText loadsErr "resume" =
      Except.error "Expecting value" := by
  obtain ⟨h1, h2, h3⟩ :=
    C5_decode_error_uncaught oracleText loadsErr dumpsConst "resume" "jd"
      "Expecting value"
  obtain ⟨ha, hb⟩ := h1 rfl
  obtain ⟨hc, hd⟩ := h2 rfl
  exact ⟨ha, hb, hc, hd, h3 rfl⟩

/-- C7: the function `fetch_jd_from_url` never lets a fetch failure escape — the
bare `except` maps any raised error to `None` — and on success it
returns the response text of the reader proxy. -/
theorem C7_fetch_never_raises (httpGet : String → Except String HttpResponse)
    (url : String) :
    (∀ resp, httpGet ("https://r.jina.ai/" ++ url) = Except.ok resp →
      fetch_jd_from_url httpGet url = some resp.text) ∧
    (∀ e, httpGet ("https://r.jina.ai/" ++ url) = Except.error e →
      fetch_jd_from_url httpGet url = none) := by
  constructor
  · intro resp h
    simp [fetch_jd_from_url, h]
  · intro e h
    simp [fetch_jd_from_url, h]

/-- A fetch stand-in that succeeds with a fixed page text. -/
def httpGetOk : String → Except String HttpResponse :=
  fun _ => Except.ok ⟨"Senior Salesforce Developer - APEX, LWC"⟩

/-- A fetch stand-in whose request raises (connection timeout). -/
def httpGetFail : String → Except String HttpResponse :=
  fun _ => Except.error "ConnectTimeout"

/-- Witness for C7: success returns the proxy text, failure returns
`None`. -/
theorem C7_witness :
    fetch_jd_from_url httpGetOk "jobs/123" =
      some "Senior Salesforce Developer - APEX, LWC" ∧
    fetch_jd_from_url httpGetFail "jobs/123" = none :=
  ⟨(C7_fetch_never_raises httpGetOk "jobs/123").1
      ⟨"Senior Salesforce Developer - APEX, LWC"⟩ rfl,
   (C7_fetch_never_raises httpGetFail "jobs/123").2 "ConnectTimeout" rfl⟩

/-- C8: the function `pdf_from_html` returns `None` exactly when `pisa.CreatePDF`
reports an error (`pisa_status.err` truthy), and in that case the
Optimized-Resume tab shows the `"Error generating PDF."` message
instead of offering a download. -/
theorem C8_pdf_error_surfaced (createPDF : String → PisaStatus × List Nat)
    (html : String) :
    (pdf_from_html createPDF html = none ↔ (createPDF html).1.err ≠ 0) ∧
    ((createPDF html).1.err ≠ 0 →
      pdf_tab createPDF html = PdfTabAction.showError) := by
  have key : ∀ hz : (createPDF html).1.err ≠ 0,
      pdf_from_html createPDF html = none := by
    intro hz
    have hb : ((createPDF html).1.err != 0) = true := by simpa using hz
    simp [pdf_from_html, hb]
  constructor
  · constructor
    · intro h
      intro hz
      have hs : pdf_from_html createPDF html = some (createPDF html).2 := by
        simp [pdf_from_html, hz]
      rw [hs] at h
      cases h
    · exact key
  · intro hz
    simp [pdf_tab, key hz]

/-- A converter stand-in that reports one error and writes nothing. -/
def createPDFErr : String → PisaStatus × List Nat :=
  fun _ => (⟨1⟩, [])

/-- Witness for C8 at a failing converter. -/
theorem C8_witness :
    (pdf_from_html createPDFErr "<p>x</p>" = none ↔
      (createPDFErr "<p>x</p>").1.err ≠ 0) ∧
    pdf_tab createPDFErr "<p>x</p>" = PdfTabAction.showError :=
  ⟨(C8_pdf_error_surfaced createPDFErr "<p>x</p>").1,
   (C8_pdf_error_surfaced createPDFErr "<p>x</p>").2 (by decide)⟩

/-- C10: the choice `final_jd = jd_text_input if jd_text_input else fetched_jd`
prefers the pasted text whenever it is non-empty and falls back to the
fetched text only when it is empty; the pipeline run uses exactly that
choice, and when both are empty/absent the button handler only warns —
no oracle call is made. -/
theorem C10_jd_choice (p : String) (f : Option String) (u : Option String)
    (oracle : ChatRequest → String) (loads : String → Except String Json)
    (dumps : Json → String) :
    (p ≠ "" → final_jd p f = some p) ∧
    (p = "" → final_jd p f = f) ∧
    (p ≠ "" → ∀ txt, analyze_button oracle loads dumps p f (some txt) =
      ButtonOutcome.run (run_pipeline oracle loads dumps txt p)) ∧
    (p = "" → (f = none ∨ f = some "") →
      analyze_button oracle loads dumps p f u = ButtonOutcome.warn) := by
  refine ⟨?_, ?_, ?_, ?_⟩
  · intro h
    simp [final_jd, h]
  · intro h
    simp [final_jd, h]
  · intro h txt
    have hfj : final_jd p f = some p := by simp [final_jd, h]
    have ht : strOptTruthy (some p) = true := by
      simpa [strOptTruthy] using h
    simp [analyze_button, hfj, ht]
  · intro hp hf
    subst hp
    rcases hf with hf | hf <;>
      simp [analyze_button, final_jd, hf, strOptTruthy]

/-- Witness for C10: pasted text wins over fetched text, and with both
empty the handler warns without calling anything. -/
theorem C10_witness :
    final_jd "pasted jd" (some "fetched jd") = some "pasted jd" ∧
    analyze_button oracleText loadsErr dumpsConst "pasted jd"
        (some "fetched jd") (some "resume text") =
      ButtonOutcome.run
        (run_pipeline oracleText loadsErr dumpsConst "resume text"
          "pasted jd") ∧
    analyze_button oracleText loadsErr dumpsConst "" none
        (some "resume text") = ButtonOutcome.warn := by
  obtain ⟨h1, _, h3, _⟩ :=
    C10_jd_choice "pasted jd" (some "fetched jd") (some "resume text")
      oracleText loadsErr dumpsConst
  obtain ⟨_, _, _, h4⟩ :=
    C10_jd_choice "" none (some "resume text") oracleText loadsErr dumpsConst
  exact ⟨h1 (by decide), h3 (by decide) "resume text",
         h4 rfl (Or.inl rfl)⟩

theorem runPipelineCases {oracle : ChatRequest → String}
    {loads : String → Except String Json} {dumps : Json → String}
    {t jd : String} {res : PipelineResult}
    (h : run_pipeline oracle loads dumps t jd = Except.ok res) :
    ∃ oa rj dd na ov nv ni oi mkv mkl mks,
      analyze_fit oracle loads t jd = Except.ok oa ∧
      rewrite_resume_to_json oracle loads t jd oa = Except.ok rj ∧
      create_docx_j rj = Except.ok dd ∧
      analyze_fit oracle loads (dumps rj) jd = Except.ok na ∧
      jitem oa "match_percentage" = Except.ok ov ∧
      jitem na "match_percentage" = Except.ok nv ∧
      asInt nv = Except.ok ni ∧
      asInt ov = Except.ok oi ∧
      jitem oa "missing_keywords" = Except.ok mkv ∧
      pyIter mkv = Except.ok mkl ∧
      strList mkl = Except.ok mks ∧
      res = ⟨oa, rj, dd, na, pyStr ov ++ "%", pyStr nv ++ "%",
             "+" ++ toString (ni - oi) ++ "%",
             String.intercalate ", " mks⟩ := by
  unfold run_pipeline at h
  obtain ⟨oa, h1, h⟩ := bindOkElim h
  obtain ⟨rj, h2, h⟩ := bindOkElim h
  obtain ⟨dd, h3, h⟩ := bindOkElim h
  obtain ⟨na, h4, h⟩ := bindOkElim h
  obtain ⟨ov, h5, h⟩ := bindOkElim h
  obtain ⟨nv, h6, h⟩ := bindOkElim h
  obtain ⟨ni, h7, h⟩ := bindOkElim h
  obtain ⟨oi, h8, h⟩ := bindOkElim h
  obtain ⟨mkv, h9, h⟩ := bindOkElim h
  obtain ⟨mkl, h10, h⟩ := bindOkElim h
  obtain ⟨mks, h11, h⟩ := bindOkElim h
  cases h
  exact ⟨oa, rj, dd, na, ov, nv, ni, oi, mkv, mkl, mks,
         h1, h2, h3, h4, h5, h6, h7, h8, h9, h10, h11, rfl⟩

/-- C4: whenever the button pipeline succeeds, the `GapReport` of
the rescoring step is exactly what the SAME `analyze_fit` function returns on
the `json.dumps` serialization of the rewritten structured resume and
the same job-description text; the original report likewise comes from
`analyze_fit` on the original text and that same job text. -/
theorem C4_rescore_same_analyzer (oracle : ChatRequest → String)
    (loads : String → Except String Json) (dumps : Json → String)
    (t jd : String) (res : PipelineResult)
    (h : run_pipeline oracle loads dumps t jd = Except.ok res) :
    analyze_fit oracle loads t jd = Except.ok res.original_analysis ∧
    analyze_fit oracle loads (dumps res.resume_json) jd =
      Except.ok res.new_analysis := by
  obtain ⟨oa, rj, dd, na, ov, nv, ni, oi, mkv, mkl, mks,
          h1, h2, h3, h4, _, _, _, _, _, _, _, hres⟩ := runPipelineCases h
  subst hres
  exact ⟨h1, h4⟩

/-- C6: the displayed score strings repeat the `match_percentage`
integers of the oracle verbatim — no validation or clamping, even
outside 0-100 — and the improvement metric is the literal string `"+"`
followed by the (possibly negative) difference and `"%"`, so a drop of
15 points renders as `"+-15%"`. -/
theorem C6_scores_not_clamped (oracle : ChatRequest → String)
    (loads : String → Except String Json) (dumps : Json → String)
    (t jd : String) (res : PipelineResult) (o n : Int)
    (h : run_pipeline oracle loads dumps t jd = Except.ok res)
    (ho : jitem res.original_analysis "match_percentage" =
      Except.ok (Json.int o))
    (hn : jitem res.new_analysis "match_percentage" =
      Except.ok (Json.int n)) :
    res.originalScoreText = toString o ++ "%" ∧
    res.newScoreText = toString n ++ "%" ∧
    res.improvementText = "+" ++ toString (n - o) ++ "%" := by
  obtain ⟨oa, rj, dd, na, ov, nv, ni, oi, mkv, mkl, mks,
          h1, h2, h3, h4, h5, h6, h7, h8, h9, h10, h11, hres⟩ :=
    runPipelineCases h
  subst hres
  rw [h5] at ho
  injection ho with hov
  subst hov
  rw [h6] at hn
  injection hn with hnv
  subst hnv
  have h7' : (Except.ok n : Except String Int) = Except.ok ni := h7
  injection h7' with h7''
  subst h7''
  have h8' : (Except.ok o : Except String Int) = Except.ok oi := h8
  injection h8' with h8''
  subst h8''
  exact ⟨by simp [pyStr, pyRepr], by simp [pyStr, pyRepr], rfl⟩

/-- A gap report with score 55 and no missing keywords. -/
def objA : Json :=
  Json.obj [("match_percentage", Json.int 55),
            ("missing_keywords", Json.arr [])]

/-- A gap report with score 40 and no missing keywords (also used as the
structured rewrite). -/
def objB : Json :=
  Json.obj [("match_percentage", Json.int 40),
            ("missing_keywords", Json.arr [])]

/-- An oracle stand-in that echoes the submitted prompt. -/
def oracleEcho : ChatRequest → String := fun req => req.content

/-- A `json.loads` stand-in: the original analysis prompt parses to the
score-55 report, everything else to the score-40 value. -/
def loadsW : String → Except String Json :=
  fun s =>
    if s == analyze_fit_prompt "orig resume" "the jd" then Except.ok objA
    else Except.ok objB

/-- A `json.dumps` stand-in with a fixed serialization. -/
def dumpsW : Json → String := fun _ => "rewritten resume JSON"

/-- The pipeline result the stand-ins above produce. -/
def resW : PipelineResult :=
  ⟨objA, objB,
   [DocElem.para [⟨"Candidate Name", true, false⟩],
    DocElem.para [Run.plain "Location | Email | Phone | LinkedIn"]],
   objB, "55%", "40%", "+-15%", ""⟩

set_option maxRecDepth 100000 in
/-- Witness for C4 at the echo oracle. -/
theorem C4_witness :
    analyze_fit oracleEcho loadsW "orig resume" "the jd" =
      Except.ok resW.original_analysis ∧
    analyze_fit oracleEcho loadsW (dumpsW resW.resume_json) "the jd" =
      Except.ok resW.new_analysis :=
  C4_rescore_same_analyzer oracleEcho loadsW dumpsW "orig resume" "the jd"
    resW (by rfl)

set_option maxRecDepth 100000 in
/-- Witness for C6 at the echo oracle: the score drops from 55 to 40 and
the displayed improvement is the nonsensical string `"+-15%"`. -/
theorem C6_witness :
    resW.originalScoreText = toString (55 : Int) ++ "%" ∧
    resW.newScoreText = toString (40 : Int) ++ "%" ∧
    resW.improvementText = "+" ++ toString ((40 : Int) - 55) ++ "%" ∧
    resW.improvementText = "+-15%" :=
  ⟨(C6_scores_not_clamped oracleEcho loadsW dumpsW "orig resume" "the jd"
      resW 55 40 (by rfl) (by rfl) (by rfl)).1,
   (C6_scores_not_clamped oracleEcho loadsW dumpsW "orig resume" "the jd"
      resW 55 40 (by rfl) (by rfl) (by rfl)).2.1,
   (C6_scores_not_clamped oracleEcho loadsW dumpsW "orig resume" "the jd"
      resW 55 40 (by rfl) (by rfl) (by rfl)).2.2,
   by rfl⟩
